import Mathlib

/-!
Verification development for the `umc_server` HTTP wrapper
(`src/umc_server/api-server.js`) of the ma_netease_cloud_music repository.

The JavaScript request handler is embedded shallowly: the raw request URL is
a string, URL parsing (`url.parse`, `String.prototype.split`,
`String.prototype.startsWith`) is modelled by executable functions on
`List Char`, the resolution engine (`require('./server/src/provider/match')`)
is an explicit function parameter resolving to either a result object or a
rejection message, and the JSON bodies are association lists of fields.
-/

namespace UMC

/-- JSON values as produced by the server (only the shapes it emits). -/
inductive Json where
  | str : String → Json
  | num : Int → Json
  | bool : Bool → Json
  | arr : List Json → Json
deriving Repr

/-- Response bodies: a JSON object (association list of fields), the raw
HTML documentation page, or the empty body of the OPTIONS reply. -/
inductive Body where
  | json : List (String × Json) → Body
  | html : String → Body
  | empty : Body
deriving Repr

/-- An HTTP response: status code, headers in the order they are set, body. -/
structure Response where
  status : Nat
  headers : List (String × String)
  body : Body
deriving Repr

/-- An incoming HTTP request as the handler sees it: `req.method`, `req.url`. -/
structure Request where
  method : String
  url : String
deriving Repr

/-- Fields of a JSON-object body (empty for the HTML and empty bodies). -/
def bodyFields : Body → List (String × Json)
  | .json l => l
  | _ => []

/-- The result object with which the engine promise resolves
(`result.url`, `result.br`, `result.size`, `result.md5`, `result.source`). -/
structure MatchResult where
  url : String
  br : Int
  size : Int
  md5 : String
  source : String
deriving Repr

/-- Outcome of `match(songId, sources)`: the promise resolves with a result
or rejects with an error whose optional `.message` is carried here. -/
inductive MatchOutcome where
  | ok : MatchResult → MatchOutcome
  | err : Option String → MatchOutcome
deriving Repr

/-! ### List-level string primitives

These model the JavaScript string operations used by the handler:
`startsWith`, `split` on a multi-character separator, `split` on a single
character, and the path/query split performed by `url.parse`. -/

/-- JS `String.prototype.startsWith`: does the second list start with the
first? -/
def startsWithL : List Char → List Char → Bool
  | [], _ => true
  | _ :: _, [] => false
  | p :: ps, c :: cs => if p = c then startsWithL ps cs else false

/-- Fuel-driven worker for `splitOnSeq`; the fuel is an upper bound on the
input length, so the `0`-fuel case is unreachable in `splitOnSeq`. -/
def splitOnSeqF (s0 : Char) (sep : List Char) : Nat → List Char → List (List Char)
  | _, [] => [[]]
  | 0, l => [l]
  | fuel + 1, c :: cs =>
    if startsWithL (s0 :: sep) (c :: cs) = true then
      [] :: splitOnSeqF s0 sep fuel (cs.drop sep.length)
    else
      match splitOnSeqF s0 sep fuel cs with
      | [] => [[c]]
      | h :: t => (c :: h) :: t

/-- JS `String.prototype.split` on the non-empty separator `s0 :: sep`:
non-overlapping occurrences are cut left to right, resuming after each
separator occurrence. -/
def splitOnSeq (s0 : Char) (sep : List Char) (l : List Char) : List (List Char) :=
  splitOnSeqF s0 sep l.length l

/-- JS `String.prototype.split` on a single-character separator. -/
def splitOnChar (sep : Char) : List Char → List (List Char)
  | [] => [[]]
  | c :: cs =>
    if c = sep then [] :: splitOnChar sep cs
    else
      match splitOnChar sep cs with
      | [] => [[c]]
      | h :: t => (c :: h) :: t

/-- The part of a list strictly before the first occurrence of `stop`
(the whole list if `stop` does not occur). -/
def takeUntil (stop : Char) : List Char → List Char
  | [] => []
  | c :: cs => if c = stop then [] else c :: takeUntil stop cs

/-- The part of a list from the first occurrence of `stop` on
(`[]` if `stop` does not occur). -/
def dropUntil (stop : Char) : List Char → List Char
  | [] => []
  | c :: cs => if c = stop then c :: cs else dropUntil stop cs

/-- The `pathname` of `url.parse(req.url)`: the URL up to the first `?`,
with any `#` fragment stripped first. -/
def pathnameOf (url : List Char) : List Char :=
  takeUntil '?' (takeUntil '#' url)

/-- The raw query string of `url.parse(req.url, true)`: what follows the
first `?` (before any `#` fragment). -/
def queryOf (url : List Char) : List Char :=
  (dropUntil '?' (takeUntil '#' url)).drop 1

/-- Lookup of one query parameter, as `querystring.parse` does for
percent-escape-free input: split on `&`, split each pair at the first `=`.
Returns `none` when the key is absent. -/
def paramValue (name : List Char) (query : List Char) : Option (List Char) :=
  ((splitOnChar '&' query).filterMap fun p =>
    if takeUntil '=' p = name then some ((dropUntil '=' p).drop 1) else none).head?

/-- Joining token lists with a separator character (the inverse direction of
`splitOnChar`, used to state that a comma-separated `sources` parameter is
recovered token by token, order preserved). -/
def joinSep (sep : Char) : List (List Char) → List Char
  | [] => []
  | [t] => t
  | t :: ts => t ++ sep :: joinSep sep ts

/-! ### The request handler (`api-server.js` lines 14–154) -/

/-- The route string `'/match/'` of `req.url.startsWith('/match/')`. -/
def matchSep : List Char := "/match/".toList

/-- Line 28: `parsedUrl.pathname.split('/match/')[1]` (index 1 always exists
under the `startsWith('/match/')` route guard, so the `[]` default is dead). -/
def parseSongId (url : String) : String :=
  String.mk ((splitOnSeq '/' "match/".toList (pathnameOf url.toList)).getD 1 [])

/-- Line 31: the default source list used when no `sources` query parameter
is supplied. -/
def defaultSources : List String := ["qq", "kugou", "kuwo", "migu", "ytdlp"]

/-- Lines 29–31: `parsedUrl.query.sources ? parsedUrl.query.sources.split(',')
: [...]`; an absent or empty (falsy) parameter selects the default list. -/
def parseSources (url : String) : List String :=
  match paramValue "sources".toList (queryOf url.toList) with
  | none => defaultSources
  | some v => if v = [] then defaultSources else (splitOnChar ',' v).map fun l => String.mk l

/-- Lines 16–18: the CORS headers set on every response before any routing. -/
def corsHeaders : List (String × String) :=
  [("Access-Control-Allow-Origin", "*"),
   ("Access-Control-Allow-Methods", "GET, OPTIONS"),
   ("Access-Control-Allow-Headers", "Content-Type")]

/-- Line 52: `error?.message || 'Unknown error'` (an absent message and the
empty, falsy, message both yield the fallback). -/
def errMessage : Option String → String
  | some m => if m = "" then "Unknown error" else m
  | none => "Unknown error"

/-- Lines 39–49: the JSON object of the success response. -/
def successBody (songId : String) (sources : List String) (r : MatchResult) :
    List (String × Json) :=
  [("success", Json.bool true),
   ("songId", Json.str songId),
   ("requestedSources", Json.arr (sources.map Json.str)),
   ("audioUrl", Json.str r.url),
   ("bitrate", Json.num r.br),
   ("size", Json.num r.size),
   ("md5", Json.str r.md5),
   ("source", Json.str r.source),
   ("type", Json.str (if r.br = 999000 then "flac" else "mp3"))]

/-- Lines 55–61: the JSON object of the failure response. -/
def failureBody (songId : String) (sources : List String) (e : Option String) :
    List (String × Json) :=
  [("success", Json.bool false),
   ("songId", Json.str songId),
   ("requestedSources", Json.arr (sources.map Json.str)),
   ("error", Json.str "Song not found in any source"),
   ("details", Json.str (errMessage e))]

/-- Lines 35–62: the continuation on the `match(songId, sources)` promise —
`.then` serializes the success body with status 200, `.catch` the failure
body with status 404, both as JSON. -/
def matchResponse (engine : String → List String → MatchOutcome)
    (songId : String) (sources : List String) : Response :=
  match engine songId sources with
  | .ok result =>
    { status := 200,
      headers := corsHeaders ++ [("Content-Type", "application/json")],
      body := .json (successBody songId sources result) }
  | .err e =>
    { status := 404,
      headers := corsHeaders ++ [("Content-Type", "application/json")],
      body := .json (failureBody songId sources e) }

/-- Lines 66–146: the HTML documentation page served at `/`. -/
def indexHtml : String :=
  "\n<!DOCTYPE html>\n<html>\n<head>\n    <title>UnblockNeteaseMusic API</title>\n    <meta charset=\"utf-8\">\n    <style>\n        body \x7b font-family: Arial, sans-serif; max-width: 800px; margin: 0 auto; padding: 20px; \x7d\n        .example \x7b background: #f5f5f5; padding: 15px; border-radius: 5px; margin: 10px 0; \x7d\n        code \x7b background: #e0e0e0; padding: 2px 4px; border-radius: 3px; \x7d\n    </style>\n</head>\n<body>\n    <h1>网易云音乐解锁API</h1>\n    <p>通过GET请求获取歌曲音源URL</p>\n\n    <h2>使用方法</h2>\n    <div class=\"example\">\n        <strong>基础用法:</strong><br>\n        <code>GET /match/\x7bsongId\x7d</code><br>\n        <em>例如: /match/418602084</em>\n    </div>\n\n    <div class=\"example\">\n        <strong>指定音源:</strong><br>\n        <code>GET /match/\x7bsongId\x7d?sources=qq,kugou,kuwo</code><br>\n        <em>例如: /match/418602084?sources=qq,kugou,migu</em>\n    </div>\n\n    <h2>支持的音源</h2>\n    <ul>\n        <li>qq - QQ音乐</li>\n        <li>kugou - 酷狗音乐</li>\n        <li>kuwo - 酷我音乐</li>\n        <li>migu - 咪咕音乐</li>\n        <li>ytdlp - YouTube (yt-dlp)</li>\n        <li>bilivideo - B站音乐</li>\n        <li>joox - JOOX音乐</li>\n    </ul>\n\n    <h2>响应格式</h2>\n    <div class=\"example\">\n        <strong>成功响应:</strong><br>\n        <pre>\n\x7b\n  \"success\": true,\n  \"songId\": \"418602084\",\n  \"requestedSources\": [\"qq\", \"kugou\"],\n  \"audioUrl\": \"https://example.com/audio.mp3\",\n  \"bitrate\": 128000,\n  \"size\": 4194304,\n  \"md5\": \"abc123...\",\n  \"source\": \"qq\",\n  \"type\": \"mp3\"\n\x7d\n        </pre>\n    </div>\n\n    <div class=\"example\">\n        <strong>失败响应:</strong><br>\n        <pre>\n\x7b\n  \"success\": false,\n  \"songId\": \"418602084\",\n  \"error\": \"Song not found in any source\"\n\x7d\n        </pre>\n    </div>\n\n    <h2>浏览器测试</h2>\n    <p>可以在浏览器地址栏直接输入API URL测试，或使用JavaScript fetch:</p>\n    <div class=\"example\">\n        <code>\nfetch('/match/418602084?sources=qq,kugou')<br>\n  .then(r => r.json())<br>\n  .then(data => console.log(data));\n        </code>\n    </div>\n</body>\n</html>\n        "

/-- The seven source tokens advertised by the documentation page's
supported-sources list (lines 97–103). -/
def documentedSources : List String :=
  ["qq", "kugou", "kuwo", "migu", "ytdlp", "bilivideo", "joox"]

/-- Lines 14–154: the request handler. The CORS headers are set first; then
OPTIONS is answered 200; then the `/match/` route dispatches the engine; then
`/` serves the documentation page; everything else is the unknown-route 404. -/
def handle (engine : String → List String → MatchOutcome) (req : Request) : Response :=
  if req.method = "OPTIONS" then
    { status := 200, headers := corsHeaders, body := .empty }
  else if startsWithL matchSep req.url.toList = true ∧ req.method = "GET" then
    matchResponse engine (parseSongId req.url) (parseSources req.url)
  else if req.url = "/" ∧ req.method = "GET" then
    { status := 200,
      headers := corsHeaders ++ [("Content-Type", "text/html; charset=utf-8")],
      body := .html indexHtml }
  else
    { status := 404,
      headers := corsHeaders ++ [("Content-Type", "application/json")],
      body := .json [("error", Json.str "Not found"),
                     ("availableEndpoints",
                      Json.arr [Json.str "/", Json.str "/match/\x7bsongId\x7d"])] }

/-! ### Concrete engines used to evaluate the handler in closed theorems -/

/-- An engine that rejects, echoing the song id and source list it was
dispatched with in the rejection message (witnesses that dispatch happened
and with which arguments). -/
def engineEcho : String → List String → MatchOutcome :=
  fun songId sources => .err (some (songId ++ "|" ++ String.intercalate "," sources))

/-- A fixed compressed-quality result (bitrate below the lossless sentinel). -/
def okResult : MatchResult :=
  ⟨"http://example.com/a.mp3", 320000, 4194304, "abc123", "qq"⟩

/-- An engine whose promise always resolves with `okResult`. -/
def engineOk : String → List String → MatchOutcome :=
  fun _ _ => .ok okResult

/-- A fixed lossless result carrying the sentinel bitrate 999000. -/
def flacResult : MatchResult :=
  ⟨"http://example.com/a.flac", 999000, 30000000, "deadbeef", "kugou"⟩

/-- An engine whose promise always resolves with `flacResult`. -/
def engineFlac : String → List String → MatchOutcome :=
  fun _ _ => .ok flacResult

/-- An engine whose promise always rejects with a fixed exhaustion message. -/
def engineFail : String → List String → MatchOutcome :=
  fun _ _ => .err (some "Song not found")

/-- An engine whose promise rejects the way an unexpected internal engine
fault does in JavaScript: the thrown TypeError becomes a rejection whose
message is the fault description. -/
def engineFault : String → List String → MatchOutcome :=
  fun _ _ => .err (some "TypeError: Cannot read properties of undefined")

/-- Does a JSON value have the array shape? -/
def isArr : Json → Bool
  | .arr _ => true
  | _ => false

/-! ### The process environment (`api-server.js` lines 1–8 and 161) -/

/-- The slice of `process.env` the server reads or writes. Each field is
`none` when the variable is unset in the operator-supplied environment. -/
structure Env where
  DEVELOPMENT : Option String
  ENABLE_LOCAL_VIP : Option String
  ENABLE_FLAC : Option String
  SELECT_MAX_BR : Option String
  FOLLOW_SOURCE_ORDER : Option String
  PORT : Option String
deriving Repr, DecidableEq

/-- Lines 2–8: the unconditional `process.env.X = '...'` assignments executed
at module load, before the engine is required and reads them. -/
def startupAssignments (env : Env) : Env :=
  { env with
    DEVELOPMENT := some "true",
    ENABLE_LOCAL_VIP := some "true",
    ENABLE_FLAC := some "true",
    SELECT_MAX_BR := some "true",
    FOLLOW_SOURCE_ORDER := some "false" }

/-- Line 161: `process.env.PORT || 3000` (unset and empty are both falsy). -/
def effectivePort (env : Env) : String :=
  match env.PORT with
  | some p => if p = "" then "3000" else p
  | none => "3000"

/-- An operator-supplied environment that sets every toggle to the opposite
of the hardcoded assignment, and a custom port. -/
def operatorEnv : Env :=
  { DEVELOPMENT := none,
    ENABLE_LOCAL_VIP := some "false",
    ENABLE_FLAC := some "false",
    SELECT_MAX_BR := some "false",
    FOLLOW_SOURCE_ORDER := some "true",
    PORT := some "8080" }

/-! ### The resolution engine under ordered-fallback policy -/

/-- Modelled from the spec: a CandidateStream, the successful outcome of one
Source Adapter call (spec section 3). The engine implementation
(`./server/src/provider/match`, vendored outside the visible sources) is not
present, so the ordered-fallback dispatch is modelled from the spec's words. -/
structure CandidateStream where
  url : String
  bitrate : Int
  size : Int
  checksum : String
  source : String
deriving Repr, DecidableEq

/-- Modelled from the spec: one adapter's unsuccessful outcome (spec
section 3): source identifier, machine-readable cause, human detail. -/
structure Failure where
  source : String
  cause : String
  detail : String
deriving Repr, DecidableEq

/-- Modelled from the spec: `resolve(trackId) -> CandidateStream | Failure`,
the Source Adapter capability contract (spec section 4.1). -/
inductive AdapterOutcome where
  | stream : CandidateStream → AdapterOutcome
  | failure : Failure → AdapterOutcome
deriving Repr, DecidableEq

/-- Modelled from the spec: a ResolutionResult is success with exactly one
CandidateStream, or exhaustion with the per-source Failure list (section 3). -/
inductive ResolutionResult where
  | success : CandidateStream → ResolutionResult
  | exhausted : List Failure → ResolutionResult
deriving Repr, DecidableEq

/-- Modelled from the spec (section 4.4, ordered fallback, the
`FOLLOW_SOURCE_ORDER`-equivalent = true branch of the missing engine):
adapters, given as (source identifier, resolve function) pairs in priority
order, are invoked strictly one at a time; the first CandidateStream is the
immediate winner and the remaining adapters are not invoked; a Failure moves
on to the next adapter; if all fail, the result is Exhausted with one Failure
per attempted adapter in attempt order. The second component returned is the
trace of source identifiers actually invoked, in invocation order. -/
def orderedFallback (trackId : String) :
    List (String × (String → AdapterOutcome)) → ResolutionResult × List String
  | [] => (.exhausted [], [])
  | (sid, adapter) :: rest =>
    match adapter trackId with
    | .stream c => (.success c, [sid])
    | .failure f =>
      match orderedFallback trackId rest with
      | (.success c, invoked) => (.success c, sid :: invoked)
      | (.exhausted fs, invoked) => (.exhausted (f :: fs), sid :: invoked)

/-- A not-found Failure for the spec example adapter `x`. -/
def failX : Failure := ⟨"x", "not-found", "no such track"⟩

/-- The spec example adapter `x`: always fails with not-found. -/
def adapterX : String → AdapterOutcome := fun _ => .failure failX

/-- The spec example winning stream of adapter `y`, bitrate 320000. -/
def streamY : CandidateStream := ⟨"http://example.com/y.mp3", 320000, 0, "", "y"⟩

/-- The spec example adapter `y`: always succeeds with `streamY`. -/
def adapterY : String → AdapterOutcome := fun _ => .stream streamY

/-- An adapter beyond the winner in the registry; the ordered-fallback
theorem shows it is never invoked. -/
def adapterZ : String → AdapterOutcome :=
  fun _ => .stream ⟨"http://example.com/z.mp3", 999000, 0, "", "z"⟩

/-! ### Elementary lemmas about the string primitives -/

theorem startsWithL_append (p rest : List Char) : startsWithL p (p ++ rest) = true := by
  induction p with
  | nil => rfl
  | cons c cs ih => simp [startsWithL, ih]

theorem exists_of_startsWithL :
    ∀ (p l : List Char), startsWithL p l = true → ∃ rest, l = p ++ rest
  | [], l, _ => ⟨l, rfl⟩
  | _ :: _, [], h => by simp [startsWithL] at h
  | p :: ps, c :: cs, h => by
    by_cases hpc : p = c
    · subst hpc
      simp only [startsWithL, if_pos rfl] at h
      obtain ⟨rest, hr⟩ := exists_of_startsWithL ps cs h
      exact ⟨rest, by simp [hr]⟩
    · simp [startsWithL, hpc] at h

theorem infixOfTail {p cs : List Char} (c : Char) (h : p <:+: cs) : p <:+: c :: cs := by
  obtain ⟨s, t, rfl⟩ := h
  exact ⟨c :: s, t, rfl⟩

theorem infixOfStartsWith {p l : List Char} (h : startsWithL p l = true) : p <:+: l := by
  obtain ⟨rest, rfl⟩ := exists_of_startsWithL p l h
  exact ⟨[], rest, rfl⟩

theorem startsWithL_eq_false {p l : List Char} (h : ¬ p <:+: l) :
    startsWithL p l = false := by
  cases he : startsWithL p l
  · rfl
  · exact absurd (infixOfStartsWith he) h

theorem splitOnSeqF_no_occ (s0 : Char) (sep : List Char) :
    ∀ (fuel : Nat) (l : List Char), l.length ≤ fuel → ¬ ((s0 :: sep) <:+: l) →
      splitOnSeqF s0 sep fuel l = [l]
  | fuel, [], _, _ => by cases fuel <;> rfl
  | 0, c :: cs, hlen, _ => by simp at hlen
  | fuel + 1, c :: cs, hlen, h => by
    have hsw : startsWithL (s0 :: sep) (c :: cs) = false := startsWithL_eq_false h
    have hlen' : cs.length ≤ fuel := by simp at hlen; omega
    have hcs : ¬ ((s0 :: sep) <:+: cs) := fun hin => h (infixOfTail c hin)
    have ih := splitOnSeqF_no_occ s0 sep fuel cs hlen' hcs
    simp [splitOnSeqF, hsw, ih]

theorem drop_len_append (a b : List Char) : (a ++ b).drop a.length = b := by
  induction a with
  | nil => rfl
  | cons c cs ih => exact ih

theorem splitOnSeq_sep_append (s0 : Char) (sep rest : List Char)
    (h : ¬ ((s0 :: sep) <:+: rest)) :
    splitOnSeq s0 sep ((s0 :: sep) ++ rest) = [[], rest] := by
  have hsw : startsWithL (s0 :: sep) (s0 :: (sep ++ rest)) = true :=
    startsWithL_append (s0 :: sep) rest
  show splitOnSeqF s0 sep ((s0 :: sep) ++ rest).length ((s0 :: sep) ++ rest) = _
  have hlen : ((s0 :: sep) ++ rest).length = (sep.length + rest.length) + 1 := by
    rw [List.length_append, List.length_cons]; omega
  rw [hlen]
  show splitOnSeqF s0 sep (sep.length + rest.length + 1) (s0 :: (sep ++ rest)) = _
  simp only [splitOnSeqF, hsw, if_pos]
  rw [drop_len_append]
  rw [splitOnSeqF_no_occ s0 sep (sep.length + rest.length) rest (by omega) h]

theorem takeUntil_of_not_mem (stop : Char) :
    ∀ (l : List Char), stop ∉ l → takeUntil stop l = l
  | [], _ => rfl
  | c :: cs, h => by
    have h1 : ¬ c = stop := fun hc => h (by simp [hc])
    have h2 : stop ∉ cs := fun hm => h (by simp [hm])
    rw [takeUntil, if_neg h1, takeUntil_of_not_mem stop cs h2]

theorem takeUntil_append_stop (stop : Char) :
    ∀ (a b : List Char), stop ∉ a → takeUntil stop (a ++ stop :: b) = a
  | [], b, _ => by simp [takeUntil]
  | c :: cs, b, h => by
    have h1 : ¬ c = stop := fun hc => h (by simp [hc])
    have h2 : stop ∉ cs := fun hm => h (by simp [hm])
    rw [List.cons_append, takeUntil, if_neg h1, takeUntil_append_stop stop cs b h2]

theorem dropUntil_of_not_mem (stop : Char) :
    ∀ (l : List Char), stop ∉ l → dropUntil stop l = []
  | [], _ => rfl
  | c :: cs, h => by
    have h1 : ¬ c = stop := fun hc => h (by simp [hc])
    have h2 : stop ∉ cs := fun hm => h (by simp [hm])
    rw [dropUntil, if_neg h1, dropUntil_of_not_mem stop cs h2]

theorem dropUntil_append_stop (stop : Char) :
    ∀ (a b : List Char), stop ∉ a → dropUntil stop (a ++ stop :: b) = stop :: b
  | [], b, _ => by simp [dropUntil]
  | c :: cs, b, h => by
    have h1 : ¬ c = stop := fun hc => h (by simp [hc])
    have h2 : stop ∉ cs := fun hm => h (by simp [hm])
    rw [List.cons_append, dropUntil, if_neg h1, dropUntil_append_stop stop cs b h2]

theorem splitOnChar_of_not_mem (sep : Char) :
    ∀ (l : List Char), sep ∉ l → splitOnChar sep l = [l]
  | [], _ => rfl
  | c :: cs, h => by
    have h1 : ¬ c = sep := fun hc => h (by simp [hc])
    have h2 : sep ∉ cs := fun hm => h (by simp [hm])
    rw [splitOnChar, if_neg h1, splitOnChar_of_not_mem sep cs h2]

theorem splitOnChar_append_sep (sep : Char) :
    ∀ (a b : List Char), sep ∉ a →
      splitOnChar sep (a ++ sep :: b) = a :: splitOnChar sep b
  | [], b, _ => by simp [splitOnChar]
  | c :: cs, b, h => by
    have h1 : ¬ c = sep := fun hc => h (by simp [hc])
    have h2 : sep ∉ cs := fun hm => h (by simp [hm])
    rw [List.cons_append, splitOnChar, if_neg h1, splitOnChar_append_sep sep cs b h2]

theorem not_mem_joinSep (c sep : Char) (hc : ¬ c = sep) :
    ∀ (ts : List (List Char)), (∀ t ∈ ts, c ∉ t) → c ∉ joinSep sep ts
  | [], _ => by simp [joinSep]
  | [t], h => by simp [joinSep]; exact h t (by simp)
  | t :: t2 :: ts, h => by
    have hrec := not_mem_joinSep c sep hc (t2 :: ts) (fun x hx => h x (by simp [hx]))
    have ht : c ∉ t := h t (by simp)
    simp [joinSep, ht, hc, hrec]

theorem splitOnChar_joinSep (sep : Char) :
    ∀ (ts : List (List Char)), ts ≠ [] → (∀ t ∈ ts, sep ∉ t) →
      splitOnChar sep (joinSep sep ts) = ts
  | [], hne, _ => absurd rfl hne
  | [t], _, h => splitOnChar_of_not_mem sep t (h t (by simp))
  | t :: t2 :: ts, _, h => by
    have hrec := splitOnChar_joinSep sep (t2 :: ts) (by simp)
      (fun x hx => h x (by simp [hx]))
    have hjoin : joinSep sep (t :: t2 :: ts) = t ++ sep :: joinSep sep (t2 :: ts) := rfl
    rw [hjoin, splitOnChar_append_sep sep t _ (h t (by simp)), hrec]

theorem strToList_append (a b : String) : (a ++ b).toList = a.toList ++ b.toList := rfl

theorem mk_toList (s : String) : String.mk s.toList = s := rfl

/-! ### General characterisation of the `/match/` route -/

/-- For a GET request `/match/{tid}` with no query string, the handler
dispatches the engine with exactly `tid` and the default source list. -/
theorem handle_match_plain (engine : String → List String → MatchOutcome) (tid : String)
    (h1 : '?' ∉ tid.toList) (h2 : '#' ∉ tid.toList)
    (h3 : ¬ (matchSep <:+: tid.toList)) :
    handle engine ⟨"GET", "/match/" ++ tid⟩ = matchResponse engine tid defaultSources := by
  have hurl : ("/match/" ++ tid).toList = matchSep ++ tid.toList := by
    rw [strToList_append]; rfl
  have hnohash : '#' ∉ matchSep ++ tid.toList := by
    intro hm
    rcases List.mem_append.mp hm with hA | hB
    · exact absurd hA (by decide)
    · exact h2 hB
  have hnoq : '?' ∉ matchSep ++ tid.toList := by
    intro hm
    rcases List.mem_append.mp hm with hA | hB
    · exact absurd hA (by decide)
    · exact h1 hB
  have hpath : pathnameOf (matchSep ++ tid.toList) = matchSep ++ tid.toList := by
    unfold pathnameOf
    rw [takeUntil_of_not_mem '#' _ hnohash, takeUntil_of_not_mem '?' _ hnoq]
  have hquery : queryOf (matchSep ++ tid.toList) = [] := by
    unfold queryOf
    rw [takeUntil_of_not_mem '#' _ hnohash, dropUntil_of_not_mem '?' _ hnoq]
    rfl
  have hsplit : splitOnSeq '/' "match/".toList (matchSep ++ tid.toList)
      = [[], tid.toList] :=
    splitOnSeq_sep_append '/' "match/".toList tid.toList h3
  have hsid : parseSongId ("/match/" ++ tid) = tid := by
    unfold parseSongId
    rw [hurl, hpath, hsplit]
    exact mk_toList tid
  have hsrc : parseSources ("/match/" ++ tid) = defaultSources := by
    unfold parseSources
    rw [hurl, hquery]
    rfl
  unfold handle
  rw [if_neg (by decide : ¬ (("GET" : String) = "OPTIONS"))]
  rw [if_pos ?guard]
  case guard =>
    refine ⟨?_, rfl⟩
    show startsWithL matchSep ("/match/" ++ tid).toList = true
    rw [hurl]
    exact startsWithL_append matchSep tid.toList
  rw [hsid, hsrc]

/-- For a GET request `/match/{tid}?sources={s}` with a non-empty raw
parameter value `s`, the handler dispatches the engine with exactly `tid` and
the comma-split of `s`, in the order the characters give it. -/
theorem handle_match_query (engine : String → List String → MatchOutcome) (tid s : String)
    (h1 : '?' ∉ tid.toList) (h2 : '#' ∉ tid.toList)
    (h3 : ¬ (matchSep <:+: tid.toList))
    (h4 : '#' ∉ s.toList) (h5 : '&' ∉ s.toList) (h6 : s ≠ "") :
    handle engine ⟨"GET", "/match/" ++ tid ++ "?sources=" ++ s⟩ =
      matchResponse engine tid ((splitOnChar ',' s.toList).map fun l => String.mk l) := by
  have hurl : ("/match/" ++ tid ++ "?sources=" ++ s).toList
      = (matchSep ++ tid.toList) ++ '?' :: ("sources".toList ++ '=' :: s.toList) := by
    rw [strToList_append, strToList_append, strToList_append]
    show matchSep ++ tid.toList ++ ('?' :: ("sources".toList ++ ['='])) ++ s.toList = _
    simp [List.append_assoc]
  have hnohashA : '#' ∉ matchSep ++ tid.toList := by
    intro hm
    rcases List.mem_append.mp hm with hA | hB
    · exact absurd hA (by decide)
    · exact h2 hB
  have hnoqA : '?' ∉ matchSep ++ tid.toList := by
    intro hm
    rcases List.mem_append.mp hm with hA | hB
    · exact absurd hA (by decide)
    · exact h1 hB
  have hnohash : '#' ∉ ("/match/" ++ tid ++ "?sources=" ++ s).toList := by
    rw [hurl]
    intro hm
    rcases List.mem_append.mp hm with hA | hB
    · exact hnohashA hA
    · rcases List.mem_cons.mp hB with hq | hC
      · exact absurd hq (by decide)
      · rcases List.mem_append.mp hC with hk | hv
        · exact absurd hk (by decide)
        · rcases List.mem_cons.mp hv with he | hs
          · exact absurd he (by decide)
          · exact h4 hs
  have hpath : pathnameOf (("/match/" ++ tid ++ "?sources=" ++ s).toList)
      = matchSep ++ tid.toList := by
    unfold pathnameOf
    rw [takeUntil_of_not_mem '#' _ hnohash, hurl,
      takeUntil_append_stop '?' _ _ hnoqA]
  have hquery : queryOf (("/match/" ++ tid ++ "?sources=" ++ s).toList)
      = "sources".toList ++ '=' :: s.toList := by
    unfold queryOf
    rw [takeUntil_of_not_mem '#' _ hnohash, hurl,
      dropUntil_append_stop '?' _ _ hnoqA]
    rfl
  have hnoamp : '&' ∉ "sources".toList ++ '=' :: s.toList := by
    intro hm
    rcases List.mem_append.mp hm with hk | hv
    · exact absurd hk (by decide)
    · rcases List.mem_cons.mp hv with he | hs
      · exact absurd he (by decide)
      · exact h5 hs
  have hparam : paramValue "sources".toList ("sources".toList ++ '=' :: s.toList)
      = some s.toList := by
    unfold paramValue
    rw [splitOnChar_of_not_mem '&' _ hnoamp]
    have hkey : takeUntil '=' ("sources".toList ++ '=' :: s.toList) = "sources".toList :=
      takeUntil_append_stop '=' _ _ (by decide)
    have hval : dropUntil '=' ("sources".toList ++ '=' :: s.toList) = '=' :: s.toList :=
      dropUntil_append_stop '=' _ _ (by decide)
    simp only [List.filterMap_cons, List.filterMap_nil]
    rw [hkey, if_pos rfl, hval]
    rfl
  have hsne : s.toList ≠ [] := by
    intro hnil
    exact h6 (by rw [← mk_toList s, hnil])
  have hsplit : splitOnSeq '/' "match/".toList (matchSep ++ tid.toList)
      = [[], tid.toList] :=
    splitOnSeq_sep_append '/' "match/".toList tid.toList h3
  have hsid : parseSongId ("/match/" ++ tid ++ "?sources=" ++ s) = tid := by
    unfold parseSongId
    rw [hpath, hsplit]
    exact mk_toList tid
  have hsrc : parseSources ("/match/" ++ tid ++ "?sources=" ++ s)
      = (splitOnChar ',' s.toList).map fun l => String.mk l := by
    unfold parseSources
    rw [hquery, hparam]
    show (if s.toList = [] then defaultSources
      else (splitOnChar ',' s.toList).map fun l => String.mk l) = _
    rw [if_neg hsne]
  unfold handle
  rw [if_neg (by decide : ¬ (("GET" : String) = "OPTIONS"))]
  rw [if_pos ?guard]
  case guard =>
    refine ⟨?_, rfl⟩
    show startsWithL matchSep ("/match/" ++ tid ++ "?sources=" ++ s).toList = true
    rw [hurl, List.append_assoc]
    exact startsWithL_append matchSep _
  rw [hsid, hsrc]

/-- Any GET request passing the `startsWith('/match/')` guard is answered by
the engine dispatch continuation on the parsed song id and source list. -/
theorem handle_match_route (engine : String → List String → MatchOutcome) :
    ∀ (req : Request), req.method = "GET" →
      startsWithL matchSep req.url.toList = true →
      handle engine req = matchResponse engine (parseSongId req.url) (parseSources req.url)
  | ⟨m, u⟩, hm, hg => by
    subst hm
    unfold handle
    rw [if_neg (by decide : ¬ (("GET" : String) = "OPTIONS"))]
    rw [if_pos ⟨hg, rfl⟩]

/-- Under ordered fallback, when every adapter before `w` fails and `w`
returns a stream, the result is that stream and the invocation trace stops
exactly at `w`: the adapters after `w` are not invoked. -/
theorem orderedFallback_first_success (tid : String)
    (w : String) (fw : String → AdapterOutcome)
    (post : List (String × (String → AdapterOutcome))) (c : CandidateStream) :
    ∀ (pre : List (String × (String → AdapterOutcome))),
      (∀ a ∈ pre, ∃ f, a.2 tid = .failure f) → fw tid = .stream c →
      orderedFallback tid (pre ++ (w, fw) :: post)
        = (.success c, pre.map Prod.fst ++ [w])
  | [], _, hw => by simp [orderedFallback, hw]
  | (sid, ad) :: pre, hpre, hw => by
    obtain ⟨f, hf⟩ := hpre (sid, ad) (by simp)
    have hf' : ad tid = .failure f := hf
    have ih := orderedFallback_first_success tid w fw post c pre
      (fun a ha => hpre a (by simp [ha])) hw
    simp [orderedFallback, hf', ih]

/-! ### The claims -/

/-- C9: in every success response, the `type` field is the lossless marker
`"flac"` exactly when the reported bitrate equals the lossless sentinel
999000, and the compressed marker `"mp3"` in every other case. -/
theorem c9_type_from_bitrate (engine : String → List String → MatchOutcome)
    (req : Request) (r : MatchResult)
    (hm : req.method = "GET")
    (hg : startsWithL matchSep req.url.toList = true)
    (hok : engine (parseSongId req.url) (parseSources req.url) = .ok r) :
    ((bodyFields (handle engine req).body).lookup "type"
        = some (Json.str "flac") ↔ r.br = 999000) ∧
    ((bodyFields (handle engine req).body).lookup "type"
        = some (Json.str "mp3") ↔ ¬ r.br = 999000) := by
  rw [handle_match_route engine req hm hg]
  unfold matchResponse
  rw [hok]
  by_cases hbr : r.br = 999000
  · simp [successBody, bodyFields, hbr, List.lookup]
  · simp [successBody, bodyFields, hbr, List.lookup]

/-- Witness for C9: on a concrete request resolved with the sentinel bitrate
999000, the serialized `type` field is `"flac"`; with bitrate 320000 it is
`"mp3"`. -/
theorem c9_witness :
    (bodyFields (handle engineFlac ⟨"GET", "/match/418602084"⟩).body).lookup "type"
      = some (Json.str "flac") ∧
    (bodyFields (handle engineOk ⟨"GET", "/match/418602084"⟩).body).lookup "type"
      = some (Json.str "mp3") :=
  ⟨(c9_type_from_bitrate engineFlac ⟨"GET", "/match/418602084"⟩ flacResult
      rfl rfl rfl).1.mpr rfl,
   (c9_type_from_bitrate engineOk ⟨"GET", "/match/418602084"⟩ okResult
      rfl rfl rfl).2.mpr (by decide)⟩

/-- C10: every response the handler produces — OPTIONS reply, engine success,
engine failure, documentation page, and unknown-route 404 alike — carries the
three permissive CORS headers, which are set before any routing decision and
therefore form a prefix of the header list. -/
theorem c10_cors_always (engine : String → List String → MatchOutcome) (req : Request) :
    ("Access-Control-Allow-Origin", "*") ∈ (handle engine req).headers ∧
    ("Access-Control-Allow-Methods", "GET, OPTIONS") ∈ (handle engine req).headers ∧
    ("Access-Control-Allow-Headers", "Content-Type") ∈ (handle engine req).headers ∧
    corsHeaders <+: (handle engine req).headers := by
  have hmem : ∀ (extra : List (String × String)),
      ("Access-Control-Allow-Origin", "*") ∈ corsHeaders ++ extra ∧
      ("Access-Control-Allow-Methods", "GET, OPTIONS") ∈ corsHeaders ++ extra ∧
      ("Access-Control-Allow-Headers", "Content-Type") ∈ corsHeaders ++ extra ∧
      corsHeaders <+: corsHeaders ++ extra :=
    fun extra => ⟨by simp [corsHeaders], by simp [corsHeaders],
      by simp [corsHeaders], ⟨extra, rfl⟩⟩
  unfold handle
  split_ifs
  · simpa using hmem []
  · unfold matchResponse
    cases engine (parseSongId req.url) (parseSources req.url) with
    | ok r => exact hmem _
    | err e => exact hmem _
  · exact hmem _
  · exact hmem _

/-- C1 counterexample: on a concrete successfully resolved request, the
success body's field names are `songId` and `md5`, not the claimed `trackId`
and `checksum`. -/
theorem c1_counterexample :
    ((bodyFields (handle engineOk ⟨"GET", "/match/418602084"⟩).body).map Prod.fst
      = ["success", "songId", "requestedSources", "audioUrl", "bitrate", "size",
         "md5", "source", "type"]) ∧
    "trackId" ∉ (bodyFields (handle engineOk ⟨"GET", "/match/418602084"⟩).body).map Prod.fst ∧
    "checksum" ∉ (bodyFields (handle engineOk ⟨"GET", "/match/418602084"⟩).body).map Prod.fst := by
  refine ⟨rfl, by decide, by decide⟩

/-- C1 amended: every successfully resolved request is answered with HTTP 200
and a JSON body holding exactly the fields `success` (true), `songId`,
`requestedSources`, `audioUrl`, `bitrate`, `size`, `md5`, `source`, `type`,
in that order. -/
theorem c1_amended_success_fields (engine : String → List String → MatchOutcome)
    (req : Request) (r : MatchResult)
    (hm : req.method = "GET")
    (hg : startsWithL matchSep req.url.toList = true)
    (hok : engine (parseSongId req.url) (parseSources req.url) = .ok r) :
    (handle engine req).status = 200 ∧
    bodyFields (handle engine req).body
      = successBody (parseSongId req.url) (parseSources req.url) r ∧
    (bodyFields (handle engine req).body).map Prod.fst
      = ["success", "songId", "requestedSources", "audioUrl", "bitrate", "size",
         "md5", "source", "type"] ∧
    (bodyFields (handle engine req).body).lookup "success" = some (Json.bool true) := by
  rw [handle_match_route engine req hm hg]
  unfold matchResponse
  rw [hok]
  exact ⟨rfl, rfl, by simp [successBody, bodyFields], by simp [successBody, bodyFields]⟩

/-- Witness for C1 (amended): the concrete success request gets status 200
and exactly the nine fields. -/
theorem c1_witness :
    (handle engineOk ⟨"GET", "/match/418602084"⟩).status = 200 ∧
    (bodyFields (handle engineOk ⟨"GET", "/match/418602084"⟩).body).map Prod.fst
      = ["success", "songId", "requestedSources", "audioUrl", "bitrate", "size",
         "md5", "source", "type"] :=
  ⟨(c1_amended_success_fields engineOk ⟨"GET", "/match/418602084"⟩ okResult
      rfl rfl rfl).1,
   (c1_amended_success_fields engineOk ⟨"GET", "/match/418602084"⟩ okResult
      rfl rfl rfl).2.2.1⟩

/-- C7 counterexample: on a concrete exhausted request with two selected
sources, the failure body is a fixed five-field object whose only
array-valued field is the echoed `requestedSources`; the failure information
is the single string `details`, not a per-source sequence of length 2. -/
theorem c7_counterexample :
    (parseSources "/match/418602084?sources=qq,kugou").length = 2 ∧
    bodyFields (handle engineFail ⟨"GET", "/match/418602084?sources=qq,kugou"⟩).body
      = [("success", Json.bool false),
         ("songId", Json.str "418602084"),
         ("requestedSources", Json.arr [Json.str "qq", Json.str "kugou"]),
         ("error", Json.str "Song not found in any source"),
         ("details", Json.str "Song not found")] ∧
    (∀ kv ∈ bodyFields
        (handle engineFail ⟨"GET", "/match/418602084?sources=qq,kugou"⟩).body,
      ¬ kv.1 = "requestedSources" → isArr kv.2 = false) := by
  refine ⟨rfl, rfl, by decide⟩

/-- C7 amended: every exhausted resolution is answered with HTTP 404 and a
five-field body `success`, `songId`, `requestedSources`, `error`, `details`,
where `details` is the single engine rejection message (or the fallback
`"Unknown error"`); per-source failure reasons are not enumerated. -/
theorem c7_amended_failure_body (engine : String → List String → MatchOutcome)
    (req : Request) (e : Option String)
    (hm : req.method = "GET")
    (hg : startsWithL matchSep req.url.toList = true)
    (herr : engine (parseSongId req.url) (parseSources req.url) = .err e) :
    (handle engine req).status = 404 ∧
    bodyFields (handle engine req).body
      = failureBody (parseSongId req.url) (parseSources req.url) e ∧
    (bodyFields (handle engine req).body).map Prod.fst
      = ["success", "songId", "requestedSources", "error", "details"] ∧
    (bodyFields (handle engine req).body).lookup "details"
      = some (Json.str (errMessage e)) := by
  rw [handle_match_route engine req hm hg]
  unfold matchResponse
  rw [herr]
  exact ⟨rfl, rfl, by simp [failureBody, bodyFields],
    by simp [failureBody, bodyFields, List.lookup]⟩

/-- Witness for C7 (amended): the concrete exhausted request has status 404
and the single details string. -/
theorem c7_witness :
    (handle engineFail ⟨"GET", "/match/418602084?sources=qq,kugou"⟩).status = 404 ∧
    (bodyFields (handle engineFail ⟨"GET", "/match/418602084?sources=qq,kugou"⟩).body).lookup
        "details" = some (Json.str "Song not found") :=
  ⟨(c7_amended_failure_body engineFail ⟨"GET", "/match/418602084?sources=qq,kugou"⟩
      (some "Song not found") rfl rfl rfl).1,
   (c7_amended_failure_body engineFail ⟨"GET", "/match/418602084?sources=qq,kugou"⟩
      (some "Song not found") rfl rfl rfl).2.2.2⟩

/-- C3 counterexample: a request with an empty track id (`GET /match/`) and a
request with an unknown source token (`sources=zzz`) are both dispatched to
the engine (the echoed rejection message records the dispatched arguments)
and answered 404 on failure — never rejected before dispatch with 400. -/
theorem c3_counterexample :
    (handle engineEcho ⟨"GET", "/match/"⟩).status = 404 ∧
    ¬ (handle engineEcho ⟨"GET", "/match/"⟩).status = 400 ∧
    (bodyFields (handle engineEcho ⟨"GET", "/match/"⟩).body).lookup "details"
      = some (Json.str "|qq,kugou,kuwo,migu,ytdlp") ∧
    (handle engineEcho ⟨"GET", "/match/123?sources=zzz"⟩).status = 404 ∧
    (bodyFields (handle engineEcho ⟨"GET", "/match/123?sources=zzz"⟩).body).lookup "details"
      = some (Json.str "123|zzz") := by
  refine ⟨rfl, by decide, rfl, rfl, rfl⟩

/-- C3 amended: the server performs no request validation — an empty track id
and an unknown source token are dispatched to the engine unchanged, every
engine rejection (validation-like or not) is answered with HTTP 404, and
HTTP 400 is never produced by any route. -/
theorem c3_amended_no_validation :
    (∀ (engine : String → List String → MatchOutcome) (req : Request) (e : Option String),
      req.method = "GET" → startsWithL matchSep req.url.toList = true →
      engine (parseSongId req.url) (parseSources req.url) = .err e →
      (handle engine req).status = 404) ∧
    (∀ (engine : String → List String → MatchOutcome) (req : Request),
      ¬ (handle engine req).status = 400) := by
  constructor
  · intro engine req e hm hg herr
    rw [handle_match_route engine req hm hg]
    unfold matchResponse
    rw [herr]
  · intro engine req
    unfold handle
    split_ifs
    · simp
    · unfold matchResponse
      cases engine (parseSongId req.url) (parseSources req.url) with
      | ok r => simp
      | err e => simp
    · simp
    · simp

/-- Witness for C3 (amended): the empty-track-id request is answered 404. -/
theorem c3_witness :
    (handle engineEcho ⟨"GET", "/match/"⟩).status = 404 :=
  c3_amended_no_validation.1 engineEcho ⟨"GET", "/match/"⟩
    (some "|qq,kugou,kuwo,migu,ytdlp") rfl rfl rfl

/-- C4 counterexample: an unexpected internal engine fault (a TypeError
rejection) is reported with HTTP 404, not the claimed 500; the fault message
even lands in the exhaustion-shaped body. -/
theorem c4_counterexample :
    (handle engineFault ⟨"GET", "/match/418602084"⟩).status = 404 ∧
    ¬ (handle engineFault ⟨"GET", "/match/418602084"⟩).status = 500 ∧
    (bodyFields (handle engineFault ⟨"GET", "/match/418602084"⟩).body).lookup "details"
      = some (Json.str "TypeError: Cannot read properties of undefined") := by
  refine ⟨rfl, by decide, rfl⟩

/-- C4 amended: the status mapping is two-way — engine success maps to 200,
every engine rejection (exhaustion, validation and unexpected faults alike)
maps to 404, and HTTP 500 is never produced by any route. -/
theorem c4_amended_status_mapping :
    (∀ (engine : String → List String → MatchOutcome) (req : Request) (r : MatchResult),
      req.method = "GET" → startsWithL matchSep req.url.toList = true →
      engine (parseSongId req.url) (parseSources req.url) = .ok r →
      (handle engine req).status = 200) ∧
    (∀ (engine : String → List String → MatchOutcome) (req : Request) (e : Option String),
      req.method = "GET" → startsWithL matchSep req.url.toList = true →
      engine (parseSongId req.url) (parseSources req.url) = .err e →
      (handle engine req).status = 404) ∧
    (∀ (engine : String → List String → MatchOutcome) (req : Request),
      ¬ (handle engine req).status = 500) := by
  refine ⟨?_, ?_, ?_⟩
  · intro engine req r hm hg hok
    rw [handle_match_route engine req hm hg]
    unfold matchResponse
    rw [hok]
  · intro engine req e hm hg herr
    rw [handle_match_route engine req hm hg]
    unfold matchResponse
    rw [herr]
  · intro engine req
    unfold handle
    split_ifs
    · simp
    · unfold matchResponse
      cases engine (parseSongId req.url) (parseSources req.url) with
      | ok r => simp
      | err e => simp
    · simp
    · simp

/-- Witness for C4 (amended): a concrete success gets 200, a concrete
rejection gets 404. -/
theorem c4_witness :
    (handle engineOk ⟨"GET", "/match/418602084"⟩).status = 200 ∧
    (handle engineFault ⟨"GET", "/match/418602084"⟩).status = 404 :=
  ⟨c4_amended_status_mapping.1 engineOk ⟨"GET", "/match/418602084"⟩ okResult rfl rfl rfl,
   c4_amended_status_mapping.2.1 engineFault ⟨"GET", "/match/418602084"⟩
     (some "TypeError: Cannot read properties of undefined") rfl rfl rfl⟩

/-- C2 counterexample: `GET /{trackId}` (the bare path segment, here
`/418602084`) is not the resolution endpoint — it falls through to the
unknown-route 404 body and the engine is never consulted (no `details`
field), while `GET /match/418602084` does dispatch the engine. -/
theorem c2_counterexample :
    (handle engineEcho ⟨"GET", "/418602084"⟩).status = 404 ∧
    bodyFields (handle engineEcho ⟨"GET", "/418602084"⟩).body
      = [("error", Json.str "Not found"),
         ("availableEndpoints",
          Json.arr [Json.str "/", Json.str "/match/\x7bsongId\x7d"])] ∧
    (bodyFields (handle engineEcho ⟨"GET", "/418602084"⟩).body).lookup "details" = none ∧
    (bodyFields (handle engineEcho ⟨"GET", "/match/418602084"⟩).body).lookup "details"
      = some (Json.str "418602084|qq,kugou,kuwo,migu,ytdlp") := by
  refine ⟨rfl, rfl, rfl, rfl⟩

/-- C2 amended: the resolution endpoint is `GET /match/{trackId}` — the track
identifier is the path segment after the `/match/` prefix, not the bare path
segment of the URL; the optional comma-separated `sources` query parameter is
split on commas with token order preserved into the engine dispatch. -/
theorem c2_amended_endpoint (engine : String → List String → MatchOutcome)
    (tid : String) (toks : List String)
    (h1 : '?' ∉ tid.toList) (h2 : '#' ∉ tid.toList)
    (h3 : ¬ (matchSep <:+: tid.toList))
    (h4 : toks ≠ [])
    (h5 : ∀ t ∈ toks, ',' ∉ t.toList ∧ '&' ∉ t.toList ∧ '#' ∉ t.toList)
    (h6 : joinSep ',' (toks.map String.toList) ≠ []) :
    handle engine ⟨"GET", "/match/" ++ tid⟩ = matchResponse engine tid defaultSources ∧
    handle engine ⟨"GET", "/match/" ++ tid ++ "?sources="
        ++ String.mk (joinSep ',' (toks.map String.toList))⟩
      = matchResponse engine tid toks := by
  refine ⟨handle_match_plain engine tid h1 h2 h3, ?_⟩
  have hhash : '#' ∉ joinSep ',' (toks.map String.toList) := by
    refine not_mem_joinSep '#' ',' (by decide) _ ?_
    intro x hx
    obtain ⟨t, ht, rfl⟩ := List.mem_map.mp hx
    exact (h5 t ht).2.2
  have hamp : '&' ∉ joinSep ',' (toks.map String.toList) := by
    refine not_mem_joinSep '&' ',' (by decide) _ ?_
    intro x hx
    obtain ⟨t, ht, rfl⟩ := List.mem_map.mp hx
    exact (h5 t ht).2.1
  have hcomma : ∀ x ∈ toks.map String.toList, ',' ∉ x := by
    intro x hx
    obtain ⟨t, ht, rfl⟩ := List.mem_map.mp hx
    exact (h5 t ht).1
  have hne : String.mk (joinSep ',' (toks.map String.toList)) ≠ "" := by
    intro h0
    exact h6 (congrArg String.toList h0)
  have hq := handle_match_query engine tid
    (String.mk (joinSep ',' (toks.map String.toList))) h1 h2 h3 hhash hamp hne
  rw [hq]
  show matchResponse engine tid
      ((splitOnChar ',' (joinSep ',' (toks.map String.toList))).map
        fun l => String.mk l) = _
  rw [splitOnChar_joinSep ',' (toks.map String.toList) (by simpa using h4) hcomma]
  rw [List.map_map]
  have hid : ((fun l => String.mk l) ∘ String.toList) = fun t : String => t := by
    funext t
    exact mk_toList t
  rw [hid]
  simp

/-- Witness for C2 (amended): concrete track id and source tokens, with the
token order `kuwo` before `qq` preserved into the dispatch. -/
theorem c2_witness :
    handle engineEcho ⟨"GET", "/match/418602084"⟩
      = matchResponse engineEcho "418602084" defaultSources ∧
    handle engineEcho ⟨"GET", "/match/418602084?sources=kuwo,qq"⟩
      = matchResponse engineEcho "418602084" ["kuwo", "qq"] :=
  ⟨(c2_amended_endpoint engineEcho "418602084" ["kuwo", "qq"]
      (by decide) (by decide) (by decide) (by decide) (by decide) (by decide)).1,
   (c2_amended_endpoint engineEcho "418602084" ["kuwo", "qq"]
      (by decide) (by decide) (by decide) (by decide) (by decide) (by decide)).2⟩

/-- C5 counterexample: a concrete request without a `sources` parameter is
dispatched with the five-entry default list, while the documentation page
advertises seven sources — `bilivideo` and `joox` are advertised but not in
the default dispatch list. -/
theorem c5_counterexample :
    parseSources "/match/418602084" = ["qq", "kugou", "kuwo", "migu", "ytdlp"] ∧
    "bilivideo" ∈ documentedSources ∧
    "joox" ∈ documentedSources ∧
    "bilivideo" ∉ parseSources "/match/418602084" ∧
    "joox" ∉ parseSources "/match/418602084" ∧
    ¬ parseSources "/match/418602084" = documentedSources ∧
    (bodyFields (handle engineEcho ⟨"GET", "/match/418602084"⟩).body).lookup
        "requestedSources"
      = some (Json.arr [Json.str "qq", Json.str "kugou", Json.str "kuwo",
          Json.str "migu", Json.str "ytdlp"]) := by
  refine ⟨rfl, by decide, by decide, by decide, by decide, by decide, rfl⟩

/-- C5 amended: every request without a `sources` query parameter is
dispatched against the hardcoded default list `qq, kugou, kuwo, migu, ytdlp`
in that order — a proper subset of the seven-source advertised registry
(`bilivideo` and `joox` are reachable only by explicit request). -/
theorem c5_amended_default_sources (url : String)
    (h : paramValue "sources".toList (queryOf url.toList) = none) :
    parseSources url = defaultSources ∧
    defaultSources ⊆ documentedSources ∧
    ¬ documentedSources ⊆ defaultSources := by
  refine ⟨?_, by decide, by decide⟩
  unfold parseSources
  rw [h]

/-- Witness for C5 (amended): the concrete no-parameter request uses the
default list. -/
theorem c5_witness :
    parseSources "/match/418602084" = defaultSources :=
  (c5_amended_default_sources "/match/418602084" rfl).1

/-- C6 (code bug): the server unconditionally overwrites the four feature
toggles at startup, so an operator environment setting every toggle to the
opposite value (and `FOLLOW_SOURCE_ORDER=true` in particular, which its own
README documents as supported configuration) is ignored — ordered-fallback
dispatch can never be selected; only the port survives to take effect. -/
theorem c6_config_override :
    operatorEnv.FOLLOW_SOURCE_ORDER = some "true" ∧
    (startupAssignments operatorEnv).FOLLOW_SOURCE_ORDER = some "false" ∧
    (startupAssignments operatorEnv).ENABLE_LOCAL_VIP = some "true" ∧
    (startupAssignments operatorEnv).ENABLE_FLAC = some "true" ∧
    (startupAssignments operatorEnv).SELECT_MAX_BR = some "true" ∧
    (startupAssignments operatorEnv).PORT = some "8080" ∧
    effectivePort (startupAssignments operatorEnv) = "8080" ∧
    (∀ env : Env, (startupAssignments env).FOLLOW_SOURCE_ORDER = some "false") ∧
    (∀ env : Env, (startupAssignments env).PORT = env.PORT) :=
  ⟨rfl, rfl, rfl, rfl, rfl, rfl, rfl, fun _ => rfl, fun _ => rfl⟩

/-- C8: under ordered fallback, when every adapter before the winner fails
and the winner returns a CandidateStream, that stream is the immediate
result and the invocation trace is exactly the failing prefix followed by
the winner — no adapter later in the attempt order is invoked. -/
theorem c8_ordered_fallback_short_circuit (tid : String)
    (pre post : List (String × (String → AdapterOutcome)))
    (w : String) (fw : String → AdapterOutcome) (c : CandidateStream)
    (hpre : ∀ a ∈ pre, ∃ f, a.2 tid = .failure f)
    (hw : fw tid = .stream c) :
    orderedFallback tid (pre ++ (w, fw) :: post)
      = (.success c, pre.map Prod.fst ++ [w]) :=
  orderedFallback_first_success tid w fw post c pre hpre hw

/-- Witness for C8: the spec example — sources `[x, y]` with `x` failing
not-found and `y` succeeding at bitrate 320000 — yields Success from `y`,
and the adapter `z` beyond the winner is absent from the invocation trace. -/
theorem c8_witness :
    orderedFallback "418602084" [("x", adapterX), ("y", adapterY), ("z", adapterZ)]
      = (.success streamY, ["x", "y"]) ∧
    streamY.bitrate = 320000 ∧ streamY.source = "y" ∧
    "z" ∉ ["x", "y"] :=
  ⟨c8_ordered_fallback_short_circuit "418602084" [("x", adapterX)] [("z", adapterZ)]
      "y" adapterY streamY
      (by intro a ha; rw [List.mem_singleton] at ha; subst ha; exact ⟨failX, rfl⟩)
      rfl,
   rfl, rfl, by decide⟩

example : parseSongId "/match/418602084" = "418602084" := by rfl

example : parseSongId "/match/418602084?sources=qq,kugou" = "418602084" := by rfl

example : parseSources "/match/418602084" = defaultSources := by rfl

example : parseSources "/match/418602084?sources=kuwo,qq" = ["kuwo", "qq"] := by rfl

example : parseSources "/match/418602084?sources=" = defaultSources := by rfl

example : (handle engineEcho ⟨"GET", "/match/"⟩).status = 404 := by rfl

example :
    (bodyFields (handle engineEcho ⟨"GET", "/match/"⟩).body).lookup "details"
      = some (Json.str "|qq,kugou,kuwo,migu,ytdlp") := by rfl

end UMC
